import Mathlib

/-!
Verification development for the "angry-cat" browser game.

The development shallowly embeds the game's behavioural core:

* the cat AI state machine of `src/cat.js` (`Cat` class: `setupForRoom`,
  `activate`, `update`, `_updateStalking`, `_updatePouncing`,
  `getDistanceTo`, `reset`);
* the static room data of `src/rooms/{kitchen,hallway,livingRoom,bedroom}.js`
  (hiding spots, trigger zones, spawn points, the bedroom exit zone);
* the per-frame orchestration loop and the lives/respawn/game-over protocol
  of `src/main.js` (`getRoomIndexForPosition`, `isInsideTriggerZone`,
  `animate`, `cat.onJumpScare`, `jumpScare.onRespawn`, `triggerWin`,
  `triggerGameOver`, `resetGame`, `startGame`);
* the timed jump-scare sequencer of `src/jumpScare.js` (`trigger`,
  `triggerHit`, the deferred completion that invokes `onRespawn`, and the
  camera-shake `update`).

Modelling conventions:

* JavaScript numbers are idealised as real numbers (`ℝ`); all geometry in
  the game is plain field arithmetic plus `Math.sqrt` via
  `THREE.Vector3.length`/`distanceTo`, embedded with `Real.sqrt`.
* `Math.random()`-based hiding-spot selection is derandomised by passing the
  random draw as an explicit `rand : Nat` parameter; the chosen index is
  `rand % spots.length`, ranging over exactly the indices
  `Math.floor(Math.random() * spots.length)` can produce.
* DOM, audio, lighting, HUD and rendering calls are visual side effects with
  no feedback into the modelled state and are not embedded (the spec scopes
  them out); camera orientation (`lookAt`, shake rotation) is likewise
  visual-only.
* Callback invocations (`onJumpScare`, `onRespawn`, victory, game over) are
  reported as explicit event fields in the function results.
-/

/-- A `THREE.Vector3`: the game only ever uses plain x/y/z arithmetic on it. -/
structure Vec3 where
  x : ℝ
  y : ℝ
  z : ℝ


/-- The `CAT_STATE` enumeration of `cat.js`. -/
inductive CatMode where
  | lurking
  | stalking
  | pouncing
deriving DecidableEq

/-- The mutable fields of the `Cat` class that the behaviour reads or writes.

`modelLoaded` is `this.model !== null`; `pos` is `this.model.position` and
`modelVisible` is `this.model.visible` (both meaningful only when the model
is loaded, exactly as in the source).  `this.mixer`, the reusable scratch
vectors and the model's orientation are visual/GC details with no effect on
the modelled fields. -/
structure CatState where
  modelLoaded : Bool
  pos : Vec3
  modelVisible : Bool
  state : CatMode
  speed : ℝ
  aggressionMultiplier : ℝ
  stalkTimer : ℝ
  stalkDuration : ℝ
  visible : Bool
  pounceFired : Bool


namespace Cat

/-- `Cat.setupForRoom(roomIndex, hidingSpots, aggressionMultiplier)`.

The source resets state/flags/timer/aggression, then — only when the
hiding-spot list is non-empty — picks `hidingSpots[Math.floor(Math.random()
* hidingSpots.length)]` and, if the model exists, moves the model there and
hides it; finally it clears `this.visible`.  `roomIndex` is accepted and
ignored, as in the source.  `rand` stands for the ambient random draw. -/
def setupForRoom (c : CatState) (roomIndex : Int) (hidingSpots : List Vec3)
    (aggressionMultiplier : ℝ) (rand : Nat) : CatState :=
  let c1 := { c with state := CatMode.lurking, pounceFired := false, stalkTimer := 0,
                     aggressionMultiplier := aggressionMultiplier }
  let c2 := match hidingSpots with
    | [] => c1
    | spot0 :: rest =>
        let spot := (spot0 :: rest).getD (rand % (spot0 :: rest).length) spot0
        if c1.modelLoaded then { c1 with pos := spot, modelVisible := false } else c1
  let _ := roomIndex
  { c2 with visible := false }

/-- `Cat.activate()`: LURKING → STALKING, no-op in any other state. -/
def activate (c : CatState) : CatState :=
  if c.state ≠ CatMode.lurking then c
  else
    let c1 := { c with state := CatMode.stalking, stalkTimer := 0, pounceFired := false,
                       visible := true }
    if c1.modelLoaded then { c1 with modelVisible := true } else c1

/-- `Cat._updateStalking(delta, playerPosition, playerIsSprinting)`.

Direction and distance are computed on the XZ plane from the position at the
start of the call; the direction is normalised only when the distance
exceeds `0.01`; the cat advances by `speed * aggressionMultiplier *
sprintFactor * delta` along it; the stalk timer accumulates `delta`; the
pounce test compares the pre-move distance with `2.0` and the incremented
timer with `stalkDuration`.  `lookAt` only orients the model. -/
noncomputable def updateStalking (c : CatState) (delta : ℝ) (playerPosition : Vec3)
    (playerIsSprinting : Bool) : CatState :=
  let dx := playerPosition.x - c.pos.x
  let dz := playerPosition.z - c.pos.z
  let distance := Real.sqrt (dx ^ 2 + dz ^ 2)
  let dir : Vec3 := if 0.01 < distance then ⟨dx / distance, 0, dz / distance⟩ else ⟨dx, 0, dz⟩
  let sprintFactor : ℝ := if playerIsSprinting then 1.5 else 1.0
  let moveSpeed := c.speed * c.aggressionMultiplier * sprintFactor * delta
  let newPos : Vec3 :=
    ⟨c.pos.x + dir.x * moveSpeed, c.pos.y + dir.y * moveSpeed, c.pos.z + dir.z * moveSpeed⟩
  let newTimer := c.stalkTimer + delta
  { c with modelVisible := true, pos := newPos, stalkTimer := newTimer,
           state := if distance < 2.0 ∨ c.stalkDuration < newTimer
                    then CatMode.pouncing else c.state }

/-- `Cat._updatePouncing()`: on the first call after the fired-flag was
cleared, set the flag and invoke `this.onJumpScare` (the orchestrator wires
this callback before gameplay starts); afterwards do nothing.  The returned
`Bool` reports whether the jump-scare callback was invoked by this call. -/
def updatePouncing (c : CatState) : CatState × Bool :=
  if c.pounceFired then (c, false)
  else ({ c with pounceFired := true }, true)

/-- `Cat.update(delta, playerPosition, playerIsSprinting)`: early return when
the model has not loaded, otherwise dispatch on the state.  The `Bool`
reports a jump-scare callback invocation (see `Cat.updatePouncing`);
`this.mixer.update` only advances GLTF animations. -/
noncomputable def update (c : CatState) (delta : ℝ) (playerPosition : Vec3)
    (playerIsSprinting : Bool) : CatState × Bool :=
  if c.modelLoaded = false then (c, false)
  else
    match c.state with
    | CatMode.lurking => (c, false)
    | CatMode.stalking => (updateStalking c delta playerPosition playerIsSprinting, false)
    | CatMode.pouncing => updatePouncing c

/-- `Cat.getDistanceTo(playerPosition)`: the full three-dimensional Euclidean
distance `THREE.Vector3.distanceTo` from the model to the given position;
`none` stands for the `Infinity` returned when the model is not loaded. -/
noncomputable def getDistanceTo (c : CatState) (playerPosition : Vec3) : Option ℝ :=
  if c.modelLoaded then
    some (Real.sqrt ((playerPosition.x - c.pos.x) ^ 2 + (playerPosition.y - c.pos.y) ^ 2 +
      (playerPosition.z - c.pos.z) ^ 2))
  else none

/-- `Cat.reset()`: back to the dormant LURKING state, hidden, timers and
flags cleared. -/
def reset (c : CatState) : CatState :=
  let c1 := { c with state := CatMode.lurking, stalkTimer := 0, pounceFired := false,
                     visible := false }
  if c1.modelLoaded then { c1 with modelVisible := false } else c1

end Cat

/-- One frame's worth of inputs to `Cat.update`. -/
structure CatInput where
  delta : ℝ
  player : Vec3
  sprint : Bool

/-- Run `Cat.update` over a list of per-frame inputs, counting how many of
the calls invoked the jump-scare callback. -/
noncomputable def runCat : CatState → List CatInput → CatState × Nat
  | c, [] => (c, 0)
  | c, i :: is =>
      let r := Cat.update c i.delta i.player i.sprint
      let rest := runCat r.1 is
      (rest.1, (if r.2 then 1 else 0) + rest.2)

/-- Total simulated time of a list of per-frame inputs. -/
def sumDeltas (L : List CatInput) : ℝ :=
  (L.map (·.delta)).sum

/-- An axis-aligned trigger/exit zone (`{ min, max }` of `THREE.Vector3`). -/
structure Zone where
  min : Vec3
  max : Vec3

/-- The per-room data consumed by the orchestrator in `main.js`: hiding
spots, trigger zone, spawn point and (bedroom only) the exit zone.  Meshes,
floor types and display names are rendering/audio content. -/
structure Room where
  catHidingSpots : List Vec3
  triggerZone : Zone
  spawnPoint : Vec3
  exitZone : Option Zone

/-- Room data of `src/rooms/kitchen.js` (WIDTH 8, DEPTH 6, HEIGHT 3,
center z = 0). -/
def kitchen : Room where
  catHidingSpots := [⟨2.5, 0, 2.5⟩, ⟨0, 0, 0⟩]
  triggerZone := ⟨⟨-2, 0, -1.5⟩, ⟨2, 3, 1.5⟩⟩
  spawnPoint := ⟨0, 1.6, 2⟩
  exitZone := none

/-- Room data of the hallway module (WIDTH 3, DEPTH 8, HEIGHT 3,
center z = -7). -/
def hallway : Room where
  catHidingSpots := [⟨0, 0, -10.2⟩]
  triggerZone := ⟨⟨-1.5, 0, -9⟩, ⟨1.5, 3, -5⟩⟩
  spawnPoint := ⟨0, 1.6, -4⟩
  exitZone := none

/-- Room data of `src/rooms/livingRoom.js` (WIDTH 8, DEPTH 6, HEIGHT 3,
center z = -14). -/
def livingRoom : Room where
  catHidingSpots := [⟨-2.5, 0, -15.2⟩, ⟨3.6, 0, -13.5⟩]
  triggerZone := ⟨⟨-2, 0, -15.5⟩, ⟨2, 3, -12.5⟩⟩
  spawnPoint := ⟨0, 1.6, -13⟩
  exitZone := none

/-- Room data of `src/rooms/bedroom.js` (WIDTH 8, DEPTH 6, HEIGHT 3,
center z = -20), the terminal room with the exit zone by the south wall. -/
def bedroom : Room where
  catHidingSpots := [⟨-1.5, 0, -20.5⟩, ⟨3.5, 0, -21.8⟩]
  triggerZone := ⟨⟨-2, 0, -21.5⟩, ⟨2, 3, -18.5⟩⟩
  spawnPoint := ⟨0, 1.6, -19⟩
  exitZone := some ⟨⟨-0.8, 0, -23.5⟩, ⟨0.8, 3, -22.5⟩⟩

/-- The `rooms` list assembled by `createHouse` in `src/house.js`:
kitchen, hallway, living room, bedroom. -/
def ROOMS : List Room := [kitchen, hallway, livingRoom, bedroom]

/-- `ROOM_AGGRESSION` of `main.js`: the aggression multiplier per room. -/
def ROOM_AGGRESSION : List ℝ := [1.0, 1.3, 1.6, 2.0]

/-- `MAX_LIVES` of `main.js`. -/
def MAX_LIVES : Int := 3

/-- One entry of `ROOM_Z_BOUNDS` in `main.js`. -/
structure ZBound where
  minZ : ℝ
  maxZ : ℝ

/-- `ROOM_Z_BOUNDS` of `main.js`: the per-room z ranges used to classify the
player's position (kitchen, hallway, living room, bedroom). -/
def ROOM_Z_BOUNDS : List ZBound :=
  [⟨-3, 3⟩, ⟨-11, -3⟩, ⟨-17, -11⟩, ⟨-23, -17⟩]

/-- The scan loop inside `getRoomIndexForPosition`: return the index (as
counted from `i`) of the first bound range containing `z`, else `-1`. -/
noncomputable def findRoomIdx (z : ℝ) : List ZBound → Nat → Int
  | [], _ => -1
  | b :: bs, i => if b.minZ ≤ z ∧ z ≤ b.maxZ then Int.ofNat i else findRoomIdx z bs (i + 1)

/-- `getRoomIndexForPosition(position)` of `main.js`: the first room whose
z-bound range contains `position.z` (inclusive on both ends), or `-1`. -/
noncomputable def getRoomIndexForPosition (position : Vec3) : Int :=
  findRoomIdx position.z ROOM_Z_BOUNDS 0

/-- `isInsideTriggerZone(position, zone)` of `main.js`: inclusive AABB
containment on the x and z axes (the vertical axis is ignored). -/
def isInsideTriggerZone (position : Vec3) (zone : Zone) : Prop :=
  zone.min.x ≤ position.x ∧ position.x ≤ zone.max.x ∧
  zone.min.z ≤ position.z ∧ position.z ≤ zone.max.z

/-- Decidability of the zone containment test (real-number comparisons are
classically decidable). -/
noncomputable instance (position : Vec3) (zone : Zone) :
    Decidable (isInsideTriggerZone position zone) := by
  unfold isInsideTriggerZone; infer_instance

/-- The win-check guard `bedroom.exitZone && isInsideTriggerZone(...)` of
`animate`: containment in the exit zone when one exists, false otherwise. -/
def exitZoneHit (position : Vec3) : Option Zone → Prop
  | some zone => isInsideTriggerZone position zone
  | none => False

/-- Decidability of the win-check guard. -/
noncomputable instance (position : Vec3) (o : Option Zone) :
    Decidable (exitZoneHit position o) := by
  cases o <;> unfold exitZoneHit <;> infer_instance

/-- Which jump-scare sequence is in flight: `JumpScare.triggerHit` (the
short 800 ms hit flash) or `JumpScare.trigger` (the full 2500 ms death
sequence with a message phase). -/
inductive JSMode where
  | hit
  | full
deriving DecidableEq

/-- The game-session state scattered through `main.js` plus the modelled
fields of the `JumpScare` instance.  `jsActive`/`jsMode` are
`jumpScare.isActive` and the pending timed sequence; `shakeIntensity` and
`shakeDuration` drive the camera shake.  `playerPos` is
`player.position` and `playerStamina` is `player.stamina` (the rest of the
player object belongs to the out-of-scope movement subsystem). -/
structure GameState where
  playerPos : Vec3
  playerStamina : ℝ
  currentRoomIndex : Int
  catActivatedInRoom : Bool
  gameRunning : Bool
  lives : Int
  cat : CatState
  jsActive : Bool
  jsMode : Option JSMode
  shakeIntensity : ℝ
  shakeDuration : ℝ

/-- `JumpScare.triggerHit()`: no-op while a sequence is active; otherwise
start the short hit sequence (flash overlay, shake 0.12/0.4) whose deferred
800 ms completion is modelled by `jsSequenceEnd`. -/
def triggerHit (g : GameState) : GameState :=
  if g.jsActive then g
  else { g with jsActive := true, jsMode := some JSMode.hit,
                shakeIntensity := 0.12, shakeDuration := 0.4 }

/-- `JumpScare.trigger()`: no-op while a sequence is active; otherwise start
the full death sequence (flash, then a death message after 600 ms, shake
0.15/0.5) whose deferred 2500 ms completion is modelled by
`jsSequenceEnd`.  The randomly chosen death-message text is display-only. -/
def triggerFull (g : GameState) : GameState :=
  if g.jsActive then g
  else { g with jsActive := true, jsMode := some JSMode.full,
                shakeIntensity := 0.15, shakeDuration := 0.5 }

/-- `jumpScare.update(delta)`: while `shakeDuration > 0`, count it down and
decay the intensity; the camera-rotation jitter itself is visual-only. -/
noncomputable def jumpScareUpdate (g : GameState) (delta : ℝ) : GameState :=
  if 0 < g.shakeDuration then
    { g with shakeDuration := g.shakeDuration - delta,
             shakeIntensity := g.shakeIntensity * 0.95 }
  else g

/-- `triggerWin()` of `main.js`: stop the game loop's logic; pointer lock,
sounds and the win screen are DOM effects. -/
def triggerWin (g : GameState) : GameState :=
  { g with gameRunning := false }

/-- `triggerGameOver()` of `main.js`: stop the game loop's logic; pointer
lock, sounds and the game-over screen are DOM effects. -/
def triggerGameOver (g : GameState) : GameState :=
  { g with gameRunning := false }

/-- `resetGame()` of `main.js`: full reset for PLAY AGAIN / TRY AGAIN —
lives back to `MAX_LIVES`, player to the kitchen spawn, cat reset, room
tracking cleared, logic stopped until the launcher restarts the game. -/
def resetGame (g : GameState) : GameState :=
  { g with gameRunning := false, currentRoomIndex := -1, catActivatedInRoom := false,
           lives := MAX_LIVES, playerPos := ⟨0, 1.6, 2⟩, playerStamina := 1,
           cat := Cat.reset g.cat }

/-- `startGame()` of `main.js` (the state-relevant part): begin a session
with full lives and no current room; sounds, hints and input mode are
out-of-scope shell work. -/
def startGame (g : GameState) : GameState :=
  { g with gameRunning := true, currentRoomIndex := -1, catActivatedInRoom := false,
           lives := MAX_LIVES }

/-- The body of `cat.onJumpScare` in `main.js`: decrement `lives`; with no
lives left start the full death sequence, otherwise the short hit scare.
The yowl/hiss stingers and the HUD update are out-of-scope effects. -/
def handleJumpScare (g : GameState) : GameState :=
  let g1 := { g with lives := g.lives - 1 }
  if g1.lives ≤ 0 then triggerFull g1 else triggerHit g1

/-- What the completion of a jump-scare sequence invoked. -/
structure RespawnEv where
  gameOver : Bool
  respawned : Bool

/-- The body of `jumpScare.onRespawn` in `main.js`: with no lives left,
game over; otherwise move the player to the current room's spawn point,
re-seed the cat in the same room and restore stamina (cat sounds stop —
audio is out of scope).  The `none` branch mirrors the out-of-bounds array
access `rooms[currentRoomIndex]`, which the orchestrator never reaches
because a jump scare presupposes an activated cat in a valid room. -/
def onRespawn (g : GameState) (rand : Nat) : GameState × RespawnEv :=
  if g.lives ≤ 0 then (triggerGameOver g, ⟨true, false⟩)
  else
    match ROOMS.get? g.currentRoomIndex.toNat with
    | some room =>
        ({ g with playerPos := room.spawnPoint,
                  cat := Cat.setupForRoom g.cat g.currentRoomIndex room.catHidingSpots
                    (ROOM_AGGRESSION.getD g.currentRoomIndex.toNat 1) rand,
                  playerStamina := 1 }, ⟨false, true⟩)
    | none => (g, ⟨false, false⟩)

/-- The deferred completion of either jump-scare sequence (the 800 ms /
2500 ms `setTimeout` bodies in `jumpScare.js`): hide the overlay, clear
`isActive`, then invoke the `onRespawn` callback. -/
def jsSequenceEnd (g : GameState) (rand : Nat) : GameState × RespawnEv :=
  onRespawn { g with jsActive := false, jsMode := none } rand

/-- Which steps of one `animate()` frame ran and which callbacks fired. -/
structure FrameEv where
  roomChanged : Bool
  victory : Bool
  triggerChecked : Bool
  catUpdated : Bool
  jumpScareFired : Bool
  jumpScareUpdated : Bool

/-- A frame in which no game logic ran and no callback fired. -/
def FrameEv.none : FrameEv := ⟨false, false, false, false, false, false⟩

/-- Total lookup into `ROOMS`; in `animate` every indexed access is guarded
by `roomIndex !== -1`, and `getRoomIndexForPosition` only produces indices
0–3, so the default is never consulted in orchestrated runs. -/
def roomAt (i : Nat) : Room := ROOMS.getD i kitchen

/-- One `animate()` frame of `main.js`, from the point where the player's
new position for this frame is known (`player.update` belongs to the
out-of-scope movement subsystem, so the moved position is an input).
Rendering, lighting, HUD and sound calls are display-only.  In order:
the `gameRunning` gate; room detection and the room-transition branch; the
bedroom exit-zone win check, which ends the frame early; the cat trigger
zone check; `cat.update` — whose jump-scare callback runs `handleJumpScare`
synchronously; and `jumpScare.update`. -/
noncomputable def frame (g : GameState) (delta : ℝ) (newPos : Vec3) (sprint : Bool)
    (rand : Nat) : GameState × FrameEv :=
  if g.gameRunning = false then (g, FrameEv.none)
  else
    let g1 := { g with playerPos := newPos }
    let roomIndex := getRoomIndexForPosition newPos
    let changed : Bool := roomIndex != -1 && roomIndex != g1.currentRoomIndex
    let g2 :=
      if changed then
        { g1 with currentRoomIndex := roomIndex, catActivatedInRoom := false,
                  cat := Cat.setupForRoom g1.cat roomIndex (roomAt roomIndex.toNat).catHidingSpots
                    (ROOM_AGGRESSION.getD roomIndex.toNat 1) rand }
      else g1
    let winHit := roomIndex = 3 ∧ exitZoneHit newPos bedroom.exitZone
    if winHit then
      (triggerWin g2, { FrameEv.none with roomChanged := changed, victory := true })
    else
      let g3 :=
        if roomIndex ≠ -1 ∧ g2.catActivatedInRoom = false ∧
            isInsideTriggerZone newPos (roomAt roomIndex.toNat).triggerZone then
          { g2 with cat := Cat.activate g2.cat, catActivatedInRoom := true }
        else g2
      let r := Cat.update g3.cat delta newPos sprint
      let g4 := { g3 with cat := r.1 }
      let g5 := if r.2 then handleJumpScare g4 else g4
      let g6 := jumpScareUpdate g5 delta
      (g6, { roomChanged := changed, victory := false, triggerChecked := true,
             catUpdated := true, jumpScareFired := r.2, jumpScareUpdated := true })

/-- The field state of `new Cat(scene)` right after the constructor runs:
no model yet, base speed 2, aggression 1, five-second stalk cap. -/
def catInit : CatState where
  modelLoaded := false
  pos := ⟨0, 0, 0⟩
  modelVisible := false
  state := CatMode.lurking
  speed := 2
  aggressionMultiplier := 1
  stalkTimer := 0
  stalkDuration := 5
  visible := false
  pounceFired := false

/-- The cat after `load()` succeeded (procedural fallback or GLTF): same
fields, model present and hidden at the scene origin. -/
def catLoaded : CatState := { catInit with modelLoaded := true }

theorem update_modelLoaded (c : CatState) (δ : ℝ) (p : Vec3) (s : Bool) :
    ((Cat.update c δ p s).1).modelLoaded = c.modelLoaded := by
  cases hm : c.modelLoaded <;>
    cases hs : c.state <;>
      simp [Cat.update, hm, hs, Cat.updateStalking, Cat.updatePouncing] <;>
        split <;> simp_all

theorem update_stalkDuration (c : CatState) (δ : ℝ) (p : Vec3) (s : Bool) :
    ((Cat.update c δ p s).1).stalkDuration = c.stalkDuration := by
  cases hm : c.modelLoaded <;>
    cases hs : c.state <;>
      simp [Cat.update, hm, hs, Cat.updateStalking, Cat.updatePouncing] <;>
        split <;> simp_all

theorem update_after_fire (c : CatState) (δ : ℝ) (p : Vec3) (s : Bool)
    (hp : c.state = CatMode.pouncing) (hf : c.pounceFired = true) :
    Cat.update c δ p s = (c, false) := by
  cases hm : c.modelLoaded <;> simp [Cat.update, hm, hp, Cat.updatePouncing, hf]

theorem update_first_fire (c : CatState) (δ : ℝ) (p : Vec3) (s : Bool)
    (hm : c.modelLoaded = true) (hp : c.state = CatMode.pouncing)
    (hf : c.pounceFired = false) :
    Cat.update c δ p s = ({ c with pounceFired := true }, true) := by
  simp [Cat.update, hm, hp, Cat.updatePouncing, hf]

theorem runCat_after_fire (c : CatState) (L : List CatInput)
    (hp : c.state = CatMode.pouncing) (hf : c.pounceFired = true) :
    runCat c L = (c, 0) := by
  induction L with
  | nil => simp [runCat]
  | cons i is ih => simp [runCat, update_after_fire c i.delta i.player i.sprint hp hf, ih]

/-- Claim C10: before the model has loaded, `Cat.update` changes no
observable cat state and fires no callback, whatever the state — in
particular a Pouncing cat does not emit the jump-scare event until the
model exists. -/
theorem update_noop_without_model (c : CatState) (δ : ℝ) (p : Vec3) (s : Bool)
    (h : c.modelLoaded = false) : Cat.update c δ p s = (c, false) := by
  simp [Cat.update, h]

/-- Witness for C10: a concrete pre-load cat (even one in Pouncing with the
fired-flag clear) is returned unchanged with no callback. -/
theorem update_noop_without_model_witness :
    Cat.update { catInit with state := CatMode.pouncing } 1 ⟨0, 1.6, 2⟩ false =
      ({ catInit with state := CatMode.pouncing }, false) :=
  update_noop_without_model { catInit with state := CatMode.pouncing } 1 ⟨0, 1.6, 2⟩ false rfl

/-- A cat captured mid-stalk in the hallway, used to exercise
`setupForRoom` with an empty hiding-spot list. -/
def catMidStalk : CatState :=
  { catLoaded with state := CatMode.stalking, pos := ⟨1, 0, -6⟩, modelVisible := true,
                   visible := true, stalkTimer := 2, aggressionMultiplier := 1.3 }

/-- Counterexample to C6: `setupForRoom` called with an empty hiding-spot
set does not fail fast — it silently proceeds, returning a well-defined
Lurking state that keeps the cat's previous position and even leaves the
model visible. -/
theorem setupForRoom_empty_no_error :
    (Cat.setupForRoom catMidStalk 1 [] 1.3 0).state = CatMode.lurking ∧
    (Cat.setupForRoom catMidStalk 1 [] 1.3 0).pos = catMidStalk.pos ∧
    (Cat.setupForRoom catMidStalk 1 [] 1.3 0).modelVisible = true ∧
    (Cat.setupForRoom catMidStalk 1 [] 1.3 0).stalkTimer = 0 ∧
    (Cat.setupForRoom catMidStalk 1 [] 1.3 0).pounceFired = false ∧
    (Cat.setupForRoom catMidStalk 1 [] 1.3 0).visible = false :=
  ⟨rfl, rfl, rfl, rfl, rfl, rfl⟩

/-- Claim C6 (amended): `setupForRoom` with an empty hiding-spot set is NOT
rejected; it silently skips the repositioning (position and model
visibility untouched) while still resetting state to Lurking, clearing the
fired-flag and stalk timer, storing the aggression factor and hiding the
logical cat. -/
theorem setupForRoom_empty_silent (c : CatState) (ri : Int) (a : ℝ) (r : Nat) :
    Cat.setupForRoom c ri [] a r =
      { c with state := CatMode.lurking, pounceFired := false, stalkTimer := 0,
               aggressionMultiplier := a, visible := false } :=
  rfl

/-- Claim C1: once a Stalking→Pouncing transition has happened (the cat is
Pouncing with the fired-flag clear — the flag is clear throughout Stalking),
any non-empty sequence of `update` calls invokes the jump-scare callback
exactly once — never zero times, never twice — and only `setupForRoom` or
`reset` clears the flag for a next encounter. -/
theorem pounce_fires_exactly_once (c : CatState) (hm : c.modelLoaded = true)
    (hp : c.state = CatMode.pouncing) (hf : c.pounceFired = false)
    (L : List CatInput) (hL : L ≠ []) :
    (runCat c L).2 = 1 ∧
    (∀ c' δ p s, c'.state = CatMode.stalking → c'.pounceFired = false →
      ((Cat.update c' δ p s).1).pounceFired = false) ∧
    (∀ c' ri spots a r, (Cat.setupForRoom c' ri spots a r).pounceFired = false) ∧
    (∀ c', (Cat.reset c').pounceFired = false) := by
  refine ⟨?_, ?_, ?_, ?_⟩
  · match L with
    | [] => exact absurd rfl hL
    | i :: is =>
        have h1 := update_first_fire c i.delta i.player i.sprint hm hp hf
        have h2 := runCat_after_fire { c with pounceFired := true } is hp rfl
        simp [runCat, h1, h2]
  · intro c' δ p s hs hf'
    cases hm' : c'.modelLoaded <;>
      simp [Cat.update, hm', hs, Cat.updateStalking, hf']
  · intro c' ri spots a r
    cases spots <;> cases hm' : c'.modelLoaded <;> simp [Cat.setupForRoom, hm']
  · intro c'
    cases hm' : c'.modelLoaded <;> simp [Cat.reset, hm']

/-- Witness for C1: a freshly-pouncing loaded cat, updated twice, fires the
callback exactly once over the two calls. -/
theorem pounce_fires_exactly_once_witness :
    (runCat { catLoaded with state := CatMode.pouncing }
      [⟨0.016, ⟨0, 1.6, 0⟩, false⟩, ⟨0.016, ⟨0, 1.6, 0⟩, true⟩]).2 = 1 :=
  (pounce_fires_exactly_once { catLoaded with state := CatMode.pouncing } rfl rfl rfl
    [⟨0.016, ⟨0, 1.6, 0⟩, false⟩, ⟨0.016, ⟨0, 1.6, 0⟩, true⟩] (by simp)).1

theorem update_pouncing_state (c : CatState) (δ : ℝ) (p : Vec3) (s : Bool)
    (hp : c.state = CatMode.pouncing) :
    ((Cat.update c δ p s).1).state = CatMode.pouncing := by
  cases hm : c.modelLoaded <;>
    cases hf : c.pounceFired <;>
      simp [Cat.update, hm, hp, Cat.updatePouncing, hf]

theorem runCat_pouncing_absorbing (L : List CatInput) (c : CatState)
    (hp : c.state = CatMode.pouncing) : ((runCat c L).1).state = CatMode.pouncing := by
  induction L generalizing c with
  | nil => simpa [runCat] using hp
  | cons i is ih =>
      rw [runCat]
      exact ih _ (update_pouncing_state c i.delta i.player i.sprint hp)

theorem updateStalking_fields (c : CatState) (δ : ℝ) (p : Vec3) (s : Bool) :
    (Cat.updateStalking c δ p s).stalkTimer = c.stalkTimer + δ ∧
    (Cat.updateStalking c δ p s).stalkDuration = c.stalkDuration ∧
    (Cat.updateStalking c δ p s).modelLoaded = c.modelLoaded ∧
    (Cat.updateStalking c δ p s).state =
      (if Real.sqrt ((p.x - c.pos.x) ^ 2 + (p.z - c.pos.z) ^ 2) < 2.0 ∨
          c.stalkDuration < c.stalkTimer + δ
       then CatMode.pouncing else c.state) := by
  refine ⟨rfl, rfl, rfl, rfl⟩

/-- In a loaded Stalking state, `update` is exactly the stalking step and
fires no callback. -/
theorem update_stalking_eq (c : CatState) (δ : ℝ) (p : Vec3) (s : Bool)
    (hm : c.modelLoaded = true) (hs : c.state = CatMode.stalking) :
    Cat.update c δ p s = (Cat.updateStalking c δ p s, false) := by
  simp [Cat.update, hm, hs]

/-- If a stalking update leaves the cat Stalking, the incremented timer has
not passed the cap. -/
theorem stalking_still_stalking_bound (c : CatState) (δ : ℝ) (p : Vec3) (s : Bool)
    (hm : c.modelLoaded = true) (hs : c.state = CatMode.stalking)
    (h : ((Cat.update c δ p s).1).state = CatMode.stalking) :
    c.stalkTimer + δ ≤ c.stalkDuration := by
  rw [update_stalking_eq c δ p s hm hs] at h
  rcases (updateStalking_fields c δ p s).2.2.2 with h4
  rw [h4] at h
  by_contra hlt
  push_neg at hlt
  rw [if_pos (Or.inr hlt)] at h
  exact absurd h (by simp)

/-- A stalking update either stays Stalking or transitions to Pouncing. -/
theorem stalking_next_state (c : CatState) (δ : ℝ) (p : Vec3) (s : Bool)
    (hm : c.modelLoaded = true) (hs : c.state = CatMode.stalking) :
    ((Cat.update c δ p s).1).state = CatMode.stalking ∨
    ((Cat.update c δ p s).1).state = CatMode.pouncing := by
  rw [update_stalking_eq c δ p s hm hs]
  rcases (updateStalking_fields c δ p s).2.2.2 with h4
  simp only [h4]
  split
  · right; rfl
  · left; exact hs

theorem stalking_run_bound (L : List CatInput) (c : CatState)
    (hm : c.modelLoaded = true) (hs : c.state = CatMode.stalking)
    (hb : c.stalkTimer ≤ c.stalkDuration)
    (hsum : c.stalkDuration < c.stalkTimer + sumDeltas L) :
    ((runCat c L).1).state = CatMode.pouncing := by
  induction L generalizing c with
  | nil =>
      exfalso
      simp only [sumDeltas, List.map_nil, List.sum_nil, add_zero] at hsum
      exact absurd hsum (not_lt.mpr hb)
  | cons i is ih =>
      rw [runCat]
      rcases stalking_next_state c i.delta i.player i.sprint hm hs with h | h
      · have ht : ((Cat.update c i.delta i.player i.sprint).1).stalkTimer =
            c.stalkTimer + i.delta := by
          rw [update_stalking_eq c i.delta i.player i.sprint hm hs]
          exact (updateStalking_fields c i.delta i.player i.sprint).1
        have hd : ((Cat.update c i.delta i.player i.sprint).1).stalkDuration =
            c.stalkDuration := update_stalkDuration c i.delta i.player i.sprint
        have hm' : ((Cat.update c i.delta i.player i.sprint).1).modelLoaded = true := by
          rw [update_modelLoaded]; exact hm
        have hb' := stalking_still_stalking_bound c i.delta i.player i.sprint hm hs h
        refine ih _ hm' h (by rw [ht, hd]; exact hb') ?_
        rw [ht, hd]
        have : sumDeltas (i :: is) = i.delta + sumDeltas is := by
          simp [sumDeltas]
        rw [this] at hsum
        linarith
      · exact runCat_pouncing_absorbing is _ h

/-- Claim C3: for any aggression factor ≥ 1 and any sprint flags, a loaded
cat that has just entered Stalking cannot remain Stalking past the
5-second cap: the stalk timer strictly increases on every positive-delta
update, and as soon as the accumulated simulated time exceeds 5.0 seconds
the cat has transitioned to Pouncing, regardless of player movement. -/
theorem stalking_bounded (c : CatState) (hm : c.modelLoaded = true)
    (hd : c.stalkDuration = 5) (ha : 1 ≤ c.aggressionMultiplier)
    (hs : c.state = CatMode.stalking) (ht : c.stalkTimer = 0)
    (L : List CatInput) (hpos : ∀ i ∈ L, 0 < i.delta) :
    (∀ δ p s, 0 < δ → c.stalkTimer < ((Cat.update c δ p s).1).stalkTimer) ∧
    (5 < sumDeltas L → ((runCat c L).1).state = CatMode.pouncing) := by
  constructor
  · intro δ p s hδ
    have h1 : ((Cat.update c δ p s).1).stalkTimer = c.stalkTimer + δ := by
      rw [update_stalking_eq c δ p s hm hs]
      exact (updateStalking_fields c δ p s).1
    rw [h1]; linarith
  · intro hsum
    exact stalking_run_bound L c hm hs (by rw [ht, hd]; norm_num)
      (by rw [ht, hd]; linarith)

/-- Witness for C3: a concrete loaded stalking cat, fed a single 6-second
update, has pounced (the accumulated time 6 exceeds the 5-second cap). -/
theorem stalking_bounded_witness :
    ((runCat { catLoaded with state := CatMode.stalking }
      [⟨6, ⟨0, 1.6, -10⟩, false⟩]).1).state = CatMode.pouncing :=
  (stalking_bounded { catLoaded with state := CatMode.stalking } rfl rfl
    (by norm_num [catLoaded, catInit]) rfl rfl [⟨6, ⟨0, 1.6, -10⟩, false⟩]
    (by intro i hi; simp at hi; rw [hi]; norm_num)).2
    (by norm_num [sumDeltas])

theorem ROOMS_get4 (n : Nat) (h : n < 4) : ROOMS.get? n = some (roomAt n) := by
  interval_cases n <;> rfl

theorem handleJumpScare_lives (g : GameState) : (handleJumpScare g).lives = g.lives - 1 := by
  unfold handleJumpScare triggerFull triggerHit
  dsimp only
  split_ifs <;> rfl

theorem handleJumpScare_roomIndex (g : GameState) :
    (handleJumpScare g).currentRoomIndex = g.currentRoomIndex := by
  unfold handleJumpScare triggerFull triggerHit
  dsimp only
  split_ifs <;> rfl

theorem handleJumpScare_hit (g : GameState) (hA : g.jsActive = false)
    (h2 : 1 ≤ g.lives - 1) :
    handleJumpScare g =
      { g with lives := g.lives - 1, jsActive := true, jsMode := some JSMode.hit,
               shakeIntensity := 0.12, shakeDuration := 0.4 } := by
  unfold handleJumpScare triggerHit triggerFull
  dsimp only
  split_ifs <;> first | rfl | omega | simp_all

theorem handleJumpScare_full (g : GameState) (hA : g.jsActive = false)
    (h0 : g.lives - 1 ≤ 0) :
    handleJumpScare g =
      { g with lives := g.lives - 1, jsActive := true, jsMode := some JSMode.full,
               shakeIntensity := 0.15, shakeDuration := 0.5 } := by
  unfold handleJumpScare triggerHit triggerFull
  dsimp only
  split_ifs <;> first | rfl | omega | simp_all

theorem onRespawn_alive (g : GameState) (rand : Nat) (h1 : 1 ≤ g.lives)
    (hr : 0 ≤ g.currentRoomIndex) (hr4 : g.currentRoomIndex < 4) :
    onRespawn g rand =
      ({ g with playerPos := (roomAt g.currentRoomIndex.toNat).spawnPoint,
                cat := Cat.setupForRoom g.cat g.currentRoomIndex
                  (roomAt g.currentRoomIndex.toNat).catHidingSpots
                  (ROOM_AGGRESSION.getD g.currentRoomIndex.toNat 1) rand,
                playerStamina := 1 }, ⟨false, true⟩) := by
  have hn : g.currentRoomIndex.toNat < 4 := by omega
  unfold onRespawn
  rw [if_neg (by omega), ROOMS_get4 _ hn]

theorem onRespawn_dead (g : GameState) (rand : Nat) (h0 : g.lives ≤ 0) :
    onRespawn g rand = (triggerGameOver g, ⟨true, false⟩) := by
  unfold onRespawn
  rw [if_pos h0]

/-- `lives` never increases across a frame: the only write to it inside
`animate` is the decrement in the jump-scare handler. -/
theorem frame_lives_mono (g : GameState) (δ : ℝ) (p : Vec3) (s : Bool) (r : Nat) :
    ((frame g δ p s r).1).lives ≤ g.lives := by
  rw [frame]
  dsimp only
  split_ifs <;>
    simp_all [triggerWin, jumpScareUpdate, handleJumpScare_lives] <;>
      split_ifs <;>
        simp_all [handleJumpScare_lives] <;> omega

/-- Claim C2: each jump-scare event decrements `lives` by exactly one; if
lives remain the short hit sequence is started and its completion respawns
the player at the current room's spawn point, while on the last life the
full sequence is started and its completion invokes game over instead of
respawn — game over fires exactly when the decremented `lives` reached 0.
`lives` never increases across frames and `resetGame` restores the maximum
of 3. -/
theorem jumpscare_lives_protocol (g : GameState) (rand : Nat) (hA : g.jsActive = false)
    (h1 : 1 ≤ g.lives) (hr : 0 ≤ g.currentRoomIndex) (hr4 : g.currentRoomIndex < 4) :
    (handleJumpScare g).lives = g.lives - 1 ∧
    (1 ≤ g.lives - 1 →
      (handleJumpScare g).jsMode = some JSMode.hit ∧
      (jsSequenceEnd (handleJumpScare g) rand).2.respawned = true ∧
      (jsSequenceEnd (handleJumpScare g) rand).2.gameOver = false ∧
      ((jsSequenceEnd (handleJumpScare g) rand).1).playerPos =
        (roomAt g.currentRoomIndex.toNat).spawnPoint) ∧
    (g.lives - 1 = 0 →
      (handleJumpScare g).jsMode = some JSMode.full ∧
      (jsSequenceEnd (handleJumpScare g) rand).2.gameOver = true ∧
      (jsSequenceEnd (handleJumpScare g) rand).2.respawned = false) ∧
    ((jsSequenceEnd (handleJumpScare g) rand).2.gameOver = true ↔ g.lives - 1 = 0) ∧
    (∀ g', (resetGame g').lives = MAX_LIVES) ∧
    (∀ g' δ p s r, ((frame g' δ p s r).1).lives ≤ g'.lives) := by
  have hMain : ∀ hcase : 1 ≤ g.lives - 1 ∨ g.lives - 1 = 0, True := fun _ => trivial
  by_cases h2 : 1 ≤ g.lives - 1
  · have hH := handleJumpScare_hit g hA h2
    have hEnd : jsSequenceEnd (handleJumpScare g) rand =
        onRespawn { (handleJumpScare g) with jsActive := false, jsMode := none } rand := rfl
    have hAlive := onRespawn_alive
      { (handleJumpScare g) with jsActive := false, jsMode := none } rand
      (by simp [handleJumpScare_lives]; omega)
      (by simp [handleJumpScare_roomIndex]; omega)
      (by simp [handleJumpScare_roomIndex]; omega)
    refine ⟨handleJumpScare_lives g, ?_, ?_, ?_, fun g' => rfl, frame_lives_mono⟩
    · intro _
      refine ⟨by rw [hH], ?_, ?_, ?_⟩
      · rw [hEnd, hAlive]
      · rw [hEnd, hAlive]
      · rw [hEnd, hAlive]
        simp [handleJumpScare_roomIndex]
    · intro h0
      omega
    · constructor
      · intro hgo
        exfalso
        rw [hEnd, hAlive] at hgo
        exact absurd hgo (by simp)
      · intro h0
        omega
  · have h0 : g.lives - 1 = 0 := by omega
    have hH := handleJumpScare_full g hA (by omega)
    have hEnd : jsSequenceEnd (handleJumpScare g) rand =
        onRespawn { (handleJumpScare g) with jsActive := false, jsMode := none } rand := rfl
    have hDead := onRespawn_dead
      { (handleJumpScare g) with jsActive := false, jsMode := none } rand
      (by simp [handleJumpScare_lives]; omega)
    refine ⟨handleJumpScare_lives g, ?_, ?_, ?_, fun g' => rfl, frame_lives_mono⟩
    · intro hcontra
      omega
    · intro _
      refine ⟨by rw [hH], ?_, ?_⟩
      · rw [hEnd, hDead]
      · rw [hEnd, hDead]
    · constructor
      · intro _
        exact h0
      · intro _
        rw [hEnd, hDead]

/-- A game state in the living room with full lives, cat pouncing, no
sequence active: the moment a jump scare lands. -/
def catAtScare : CatState :=
  { catLoaded with state := CatMode.pouncing, pos := ⟨0, 0, -14.5⟩,
                   modelVisible := true, visible := true, aggressionMultiplier := 1.6 }

def gAtScare : GameState where
  playerPos := ⟨0, 1.6, -14⟩
  playerStamina := 0.5
  currentRoomIndex := 2
  catActivatedInRoom := true
  gameRunning := true
  lives := 3
  cat := catAtScare
  jsActive := false
  jsMode := none
  shakeIntensity := 0
  shakeDuration := 0

/-- Witness for C2: at the concrete scare state with 3 lives, the handler
leaves 2 lives, and the completion of the short sequence respawns the
player at the living-room spawn point without game over. -/
theorem jumpscare_lives_protocol_witness :
    (handleJumpScare gAtScare).lives = gAtScare.lives - 1 ∧
    (jsSequenceEnd (handleJumpScare gAtScare) 0).2.respawned = true ∧
    (jsSequenceEnd (handleJumpScare gAtScare) 0).2.gameOver = false ∧
    ((jsSequenceEnd (handleJumpScare gAtScare) 0).1).playerPos = livingRoom.spawnPoint := by
  have h := jumpscare_lives_protocol gAtScare 0 rfl (by norm_num [gAtScare])
    (by norm_num [gAtScare]) (by norm_num [gAtScare])
  have h2 := h.2.1 (by norm_num [gAtScare])
  exact ⟨h.1, h2.2.1, h2.2.2.1, h2.2.2.2⟩

theorem update_lurking (c : CatState) (δ : ℝ) (p : Vec3) (s : Bool)
    (h : c.state = CatMode.lurking) : Cat.update c δ p s = (c, false) := by
  cases hm : c.modelLoaded <;> simp [Cat.update, hm, h]

theorem setupForRoom_state (c : CatState) (ri : Int) (spots : List Vec3) (a : ℝ) (r : Nat) :
    (Cat.setupForRoom c ri spots a r).state = CatMode.lurking := by
  cases spots <;> cases hm : c.modelLoaded <;> simp [Cat.setupForRoom, hm]

theorem handleJumpScare_armed (g : GameState) :
    (handleJumpScare g).catActivatedInRoom = g.catActivatedInRoom := by
  unfold handleJumpScare triggerFull triggerHit
  dsimp only
  split_ifs <;> rfl

theorem jumpScareUpdate_armed (g : GameState) (δ : ℝ) :
    (jumpScareUpdate g δ).catActivatedInRoom = g.catActivatedInRoom := by
  unfold jumpScareUpdate
  split_ifs <;> rfl

theorem jumpScareUpdate_cat (g : GameState) (δ : ℝ) :
    (jumpScareUpdate g δ).cat = g.cat := by
  unfold jumpScareUpdate
  split_ifs <;> rfl

theorem handleJumpScare_cat (g : GameState) :
    (handleJumpScare g).cat = g.cat := by
  unfold handleJumpScare triggerFull triggerHit
  dsimp only
  split_ifs <;> rfl

/-- Claim C5 (amended): the win check requires the player to be classified
into the terminal room AND inside its exit zone; in a running frame where
both hold, victory is raised and the trigger-zone check, cat update and
jump-scare update are all skipped this frame; game logic is stopped
(`gameRunning = false`), and any frame with game logic stopped changes
nothing and fires nothing.  Exit-zone positions outside the room-3 z range
do not trigger victory (see the counterexample below). -/
theorem victory_stops_frame (g : GameState) (δ : ℝ) (p : Vec3) (s : Bool) (r : Nat)
    (hrun : g.gameRunning = true) (hroom : getRoomIndexForPosition p = 3)
    (hexit : exitZoneHit p bedroom.exitZone) :
    ((frame g δ p s r).2).victory = true ∧
    ((frame g δ p s r).2).triggerChecked = false ∧
    ((frame g δ p s r).2).catUpdated = false ∧
    ((frame g δ p s r).2).jumpScareUpdated = false ∧
    ((frame g δ p s r).2).jumpScareFired = false ∧
    ((frame g δ p s r).1).gameRunning = false ∧
    (∀ g' δ2 p2 s2 r2, g'.gameRunning = false →
      frame g' δ2 p2 s2 r2 = (g', FrameEv.none)) := by
  have hfr : ∃ g2 ch, frame g δ p s r =
      (triggerWin g2, { FrameEv.none with roomChanged := ch, victory := true }) := by
    rw [frame, if_neg (by simp [hrun])]
    dsimp only
    rw [hroom, if_pos ⟨rfl, hexit⟩]
    exact ⟨_, _, rfl⟩
  obtain ⟨g2, ch, hfr⟩ := hfr
  rw [hfr]
  refine ⟨rfl, rfl, rfl, rfl, rfl, rfl, ?_⟩
  intro g' δ2 p2 s2 r2 h
  rw [frame, if_pos h]

/-- A running game state with the player just inside the bedroom exit
zone. -/
def gAtExit : GameState where
  playerPos := ⟨0, 1.6, -23⟩
  playerStamina := 1
  currentRoomIndex := 3
  catActivatedInRoom := true
  gameRunning := true
  lives := 3
  cat := { catLoaded with state := CatMode.stalking, pos := ⟨3.5, 0, -21.8⟩ }
  jsActive := false
  jsMode := none
  shakeIntensity := 0
  shakeDuration := 0

/-- Witness for C5: with the player at (0, 1.6, −23) — inside the bedroom
exit zone — the frame raises victory, skips the remaining steps and stops
game logic. -/
theorem victory_stops_frame_witness :
    ((frame gAtExit 0.016 ⟨0, 1.6, -23⟩ false 0).2).victory = true ∧
    ((frame gAtExit 0.016 ⟨0, 1.6, -23⟩ false 0).2).catUpdated = false ∧
    ((frame gAtExit 0.016 ⟨0, 1.6, -23⟩ false 0).1).gameRunning = false := by
  have h := victory_stops_frame gAtExit 0.016 ⟨0, 1.6, -23⟩ false 0 rfl
    (by norm_num [getRoomIndexForPosition, findRoomIdx, ROOM_Z_BOUNDS])
    (by norm_num [exitZoneHit, bedroom, isInsideTriggerZone])
  exact ⟨h.1, h.2.2.1, h.2.2.2.2.2.1⟩

theorem jumpScareUpdate_gameRunning (g : GameState) (δ : ℝ) :
    (jumpScareUpdate g δ).gameRunning = g.gameRunning := by
  unfold jumpScareUpdate
  split_ifs <;> rfl

/-- The frame input position just past the bedroom's south wall: inside the
exit zone but below the room-3 classification range. -/
def gPastExit : GameState := { gAtExit with playerPos := ⟨0, 1.6, -23.2⟩ }

/-- The cat after the stalking step the frame at `gPastExit` performs. -/
noncomputable def catPastExit : CatState :=
  Cat.updateStalking gAtExit.cat 0.016 ⟨0, 1.6, -23.2⟩ false

/-- Counterexample to C5 as stated: the bedroom exit zone reaches z = −23.5
but room 3's classification range stops at z = −23, so at (0, 1.6, −23.2)
the player satisfies the exit-zone containment yet is classified into no
room: the win check (`roomIndex === 3 && ...`) does not fire, no victory is
raised, and the frame still runs the trigger-zone check, the cat update and
the jump-scare update, with game logic still running afterwards. -/
theorem victory_gap_counterexample :
    exitZoneHit ⟨0, 1.6, -23.2⟩ bedroom.exitZone ∧
    getRoomIndexForPosition ⟨0, 1.6, -23.2⟩ = -1 ∧
    gAtExit.gameRunning = true ∧
    ((frame gAtExit 0.016 ⟨0, 1.6, -23.2⟩ false 0).2).victory = false ∧
    ((frame gAtExit 0.016 ⟨0, 1.6, -23.2⟩ false 0).2).triggerChecked = true ∧
    ((frame gAtExit 0.016 ⟨0, 1.6, -23.2⟩ false 0).2).catUpdated = true ∧
    ((frame gAtExit 0.016 ⟨0, 1.6, -23.2⟩ false 0).2).jumpScareUpdated = true ∧
    ((frame gAtExit 0.016 ⟨0, 1.6, -23.2⟩ false 0).1).gameRunning = true := by
  have hroom : getRoomIndexForPosition ⟨0, 1.6, -23.2⟩ = -1 := by
    norm_num [getRoomIndexForPosition, findRoomIdx, ROOM_Z_BOUNDS]
  have hfr : frame gAtExit 0.016 ⟨0, 1.6, -23.2⟩ false 0 =
      (jumpScareUpdate { gPastExit with cat := catPastExit } 0.016,
        { roomChanged := false, victory := false, triggerChecked := true,
          catUpdated := true, jumpScareFired := false, jumpScareUpdated := true }) := by
    rw [frame, if_neg (show ¬(gAtExit.gameRunning = false) by simp [gAtExit])]
    dsimp only
    rw [hroom]
    rw [if_neg (show ¬((((-1 : Int) != -1) &&
      ((-1 : Int) != gAtExit.currentRoomIndex)) = true) by simp)]
    rw [if_neg (show ¬((-1 : Int) = 3 ∧
      exitZoneHit ⟨0, 1.6, -23.2⟩ bedroom.exitZone) by simp)]
    rw [if_neg (show ¬((-1 : Int) ≠ -1 ∧
      ({ gAtExit with playerPos := (⟨0, 1.6, -23.2⟩ : Vec3) } : GameState).catActivatedInRoom
        = false ∧
      isInsideTriggerZone ⟨0, 1.6, -23.2⟩
        (roomAt ((-1 : Int)).toNat).triggerZone) by simp)]
    dsimp only
    rw [update_stalking_eq gAtExit.cat 0.016 ⟨0, 1.6, -23.2⟩ false rfl rfl]
    dsimp only
    rw [if_neg (show ¬((false : Bool) = true) by simp)]
    rfl
  refine ⟨by norm_num [exitZoneHit, bedroom, isInsideTriggerZone], hroom, rfl,
    ?_, ?_, ?_, ?_, ?_⟩
  · rw [hfr]
  · rw [hfr]
  · rw [hfr]
  · rw [hfr]
  · rw [hfr, jumpScareUpdate_gameRunning]
    rfl

/-- Claim C7 (amended): the room-trigger armed flag survives a respawn (it
is cleared only by a room transition inside the frame loop), and the
respawn itself puts the cat back into Lurking; in a subsequent same-room
frame the armed flag suppresses the trigger-zone check, so the Lurking cat
is not re-activated even though the player re-lands inside the trigger
zone. -/
theorem respawn_same_room_no_retrigger (g : GameState) (rand : Nat)
    (hact : g.catActivatedInRoom = true) (h1 : 1 ≤ g.lives)
    (hr : 0 ≤ g.currentRoomIndex) (hr4 : g.currentRoomIndex < 4) :
    ((jsSequenceEnd g rand).1).catActivatedInRoom = true ∧
    ((jsSequenceEnd g rand).1).cat.state = CatMode.lurking ∧
    (∀ g' δ p s r, g'.catActivatedInRoom = true →
      ((frame g' δ p s r).1).catActivatedInRoom = false →
      (getRoomIndexForPosition p ≠ -1 ∧
        getRoomIndexForPosition p ≠ g'.currentRoomIndex)) ∧
    (∀ g' δ p s r, g'.catActivatedInRoom = true → g'.cat.state = CatMode.lurking →
      getRoomIndexForPosition p = g'.currentRoomIndex →
      ((frame g' δ p s r).1).cat.state = CatMode.lurking ∧
      ((frame g' δ p s r).1).catActivatedInRoom = true) := by
  have hEnd : jsSequenceEnd g rand =
      onRespawn { g with jsActive := false, jsMode := none } rand := rfl
  have hAlive := onRespawn_alive { g with jsActive := false, jsMode := none } rand
    (by simpa using h1) (by simpa using hr) (by simpa using hr4)
  refine ⟨?_, ?_, ?_, ?_⟩
  · rw [hEnd, hAlive]
    exact hact
  · rw [hEnd, hAlive]
    dsimp only
    exact setupForRoom_state _ _ _ _ _
  · intro g' δ p s r hact' hfalse
    by_cases hrun' : g'.gameRunning = false
    · rw [frame, if_pos hrun'] at hfalse
      rw [hact'] at hfalse
      exact absurd hfalse (by simp)
    · rw [frame, if_neg hrun'] at hfalse
      dsimp only at hfalse
      by_cases hch : (getRoomIndexForPosition p != -1 &&
          getRoomIndexForPosition p != g'.currentRoomIndex) = true
      · simpa using hch
      · exfalso
        rw [if_neg hch] at hfalse
        by_cases hwin : getRoomIndexForPosition p = 3 ∧ exitZoneHit p bedroom.exitZone
        · rw [if_pos hwin] at hfalse
          exact absurd hfalse (by simp [triggerWin, hact'])
        · rw [if_neg hwin] at hfalse
          dsimp only at hfalse
          rw [jumpScareUpdate_armed] at hfalse
          rw [apply_ite (fun gg : GameState => gg.catActivatedInRoom),
            handleJumpScare_armed, ite_self] at hfalse
          dsimp only at hfalse
          rw [apply_ite (fun gg : GameState => gg.catActivatedInRoom)] at hfalse
          dsimp only at hfalse
          rw [hact'] at hfalse
          rw [ite_self] at hfalse
          exact absurd hfalse (by simp)
  · intro g' δ p s r hact' hlurk hroomeq
    by_cases hrun' : g'.gameRunning = false
    · rw [frame, if_pos hrun']
      exact ⟨hlurk, hact'⟩
    · rw [frame, if_neg hrun']
      dsimp only
      have hch : ¬((getRoomIndexForPosition p != -1 &&
          getRoomIndexForPosition p != g'.currentRoomIndex) = true) := by
        simp [hroomeq]
      rw [if_neg hch]
      by_cases hwin : getRoomIndexForPosition p = 3 ∧ exitZoneHit p bedroom.exitZone
      · rw [if_pos hwin]
        exact ⟨hlurk, hact'⟩
      · rw [if_neg hwin]
        dsimp only
        rw [if_neg (show ¬(getRoomIndexForPosition p ≠ -1 ∧
            ({ g' with playerPos := p } : GameState).catActivatedInRoom = false ∧
            isInsideTriggerZone p
              (roomAt (getRoomIndexForPosition p).toNat).triggerZone) by
          simp [hact'])]
        rw [update_lurking _ δ p s hlurk]
        dsimp only
        rw [if_neg (show ¬((false : Bool) = true) by simp)]
        rw [jumpScareUpdate_cat, jumpScareUpdate_armed]
        exact ⟨hlurk, hact'⟩

/-- A game state captured during the short hit sequence in the living room
(one life already deducted, sequence active, cat pounced). -/
def gMidSequence : GameState where
  playerPos := ⟨0, 1.6, -14⟩
  playerStamina := 0.4
  currentRoomIndex := 2
  catActivatedInRoom := true
  gameRunning := true
  lives := 2
  cat := { catAtScare with pounceFired := true }
  jsActive := true
  jsMode := some JSMode.hit
  shakeIntensity := 0.12
  shakeDuration := 0.2

/-- Counterexample to C7 as stated: immediately after the respawn the cat
is NOT active — it has been reset to Lurking, hidden (both flags), at a
hiding spot — while the armed flag is still set and the player re-lands on
the living-room spawn point, which lies inside the trigger zone. -/
theorem respawn_cat_inactive_counterexample :
    ((jsSequenceEnd gMidSequence 0).1).cat.state = CatMode.lurking ∧
    ((jsSequenceEnd gMidSequence 0).1).cat.visible = false ∧
    ((jsSequenceEnd gMidSequence 0).1).cat.modelVisible = false ∧
    ((jsSequenceEnd gMidSequence 0).1).catActivatedInRoom = true ∧
    ((jsSequenceEnd gMidSequence 0).1).playerPos = livingRoom.spawnPoint ∧
    isInsideTriggerZone livingRoom.spawnPoint livingRoom.triggerZone := by
  refine ⟨rfl, rfl, rfl, rfl, rfl, ?_⟩
  norm_num [isInsideTriggerZone, livingRoom]

/-- Witness for C7: at the concrete mid-sequence state, the completion of
the sequence preserves the armed flag and leaves the cat Lurking. -/
theorem respawn_same_room_no_retrigger_witness :
    ((jsSequenceEnd gMidSequence 0).1).catActivatedInRoom = true ∧
    ((jsSequenceEnd gMidSequence 0).1).cat.state = CatMode.lurking := by
  have h := respawn_same_room_no_retrigger gMidSequence 0 rfl
    (by norm_num [gMidSequence]) (by norm_num [gMidSequence]) (by norm_num [gMidSequence])
  exact ⟨h.1, h.2.1⟩

/-- A loaded cat at the scene origin that has just started stalking. -/
def catC8 : CatState := { catLoaded with state := CatMode.stalking }

/-- The position `model.position` produced by a stalking step, spelled out. -/
theorem updateStalking_pos (c : CatState) (δ : ℝ) (p : Vec3) (s : Bool) :
    (Cat.updateStalking c δ p s).pos =
      (let dx := p.x - c.pos.x
       let dz := p.z - c.pos.z
       let distance := Real.sqrt (dx ^ 2 + dz ^ 2)
       let dir : Vec3 := if 0.01 < distance then ⟨dx / distance, 0, dz / distance⟩
                         else ⟨dx, 0, dz⟩
       let moveSpeed := c.speed * c.aggressionMultiplier * (if s then 1.5 else 1.0) * δ
       (⟨c.pos.x + dir.x * moveSpeed, c.pos.y + dir.y * moveSpeed,
         c.pos.z + dir.z * moveSpeed⟩ : Vec3)) := rfl

/-- Counterexample to C8: with the cat at the origin and the player at
(0, 2, 1), one stalking update transitions to Pouncing — the horizontal
distance is 1 < 2 — even though the Euclidean distance exposed by
`getDistanceTo` is √5 > 2 and the stalk cap is far from exceeded.  The
pounce trigger therefore does not use the `getDistanceTo` metric. -/
theorem pounce_metric_counterexample :
    ((Cat.update catC8 (1/10) ⟨0, 2, 1⟩ false).1).state = CatMode.pouncing ∧
    Cat.getDistanceTo catC8 ⟨0, 2, 1⟩ = some (Real.sqrt 5) ∧
    2 < Real.sqrt 5 ∧
    ¬(catC8.stalkDuration < catC8.stalkTimer + 1 / 10) := by
  refine ⟨?_, ?_, ?_, ?_⟩
  · rw [update_stalking_eq catC8 (1/10) ⟨0, 2, 1⟩ false rfl rfl,
      (updateStalking_fields catC8 (1/10) ⟨0, 2, 1⟩ false).2.2.2]
    norm_num [catC8, catLoaded, catInit, Real.sqrt_one]
  · rw [Cat.getDistanceTo, if_pos (show catC8.modelLoaded = true from rfl)]
    norm_num [catC8, catLoaded, catInit]
  · exact (Real.lt_sqrt (by norm_num)).2 (by norm_num)
  · norm_num [catC8, catLoaded, catInit]

/-- Claim C8 (amended): while Stalking, the transition to Pouncing happens
exactly when the horizontal (XZ-plane) distance from the cat to the player
at the start of the update is below 2.0, or the incremented stalk timer
exceeds the cap; the 3D Euclidean distance exposed by `getDistanceTo`
coincides with this pounce metric only when the two heights agree. -/
theorem stalking_pounce_condition (c : CatState) (δ : ℝ) (p : Vec3) (s : Bool)
    (hm : c.modelLoaded = true) (hs : c.state = CatMode.stalking) :
    (((Cat.update c δ p s).1).state = CatMode.pouncing ↔
      Real.sqrt ((p.x - c.pos.x) ^ 2 + (p.z - c.pos.z) ^ 2) < 2.0 ∨
      c.stalkDuration < c.stalkTimer + δ) ∧
    (p.y = c.pos.y →
      Cat.getDistanceTo c p =
        some (Real.sqrt ((p.x - c.pos.x) ^ 2 + (p.z - c.pos.z) ^ 2))) := by
  constructor
  · rw [update_stalking_eq c δ p s hm hs,
      (updateStalking_fields c δ p s).2.2.2]
    constructor
    · intro h
      by_contra hcon
      rw [if_neg hcon, hs] at h
      exact absurd h (by simp)
    · intro h
      rw [if_pos h]
  · intro hy
    have harith : (p.x - c.pos.x) ^ 2 + (c.pos.y - c.pos.y) ^ 2 + (p.z - c.pos.z) ^ 2
        = (p.x - c.pos.x) ^ 2 + (p.z - c.pos.z) ^ 2 := by ring
    rw [Cat.getDistanceTo, if_pos hm, hy, harith]

/-- Witness for C8: at equal heights the exposed distance reduces to the
horizontal pounce metric, here for the concrete stalking cat at the origin
and the player at (3, 0, 4). -/
theorem stalking_pounce_condition_witness :
    Cat.getDistanceTo catC8 ⟨3, 0, 4⟩ =
      some (Real.sqrt ((3 - catC8.pos.x) ^ 2 + (4 - catC8.pos.z) ^ 2)) :=
  (stalking_pounce_condition catC8 (1/10) ⟨3, 0, 4⟩ false rfl rfl).2 rfl

/-- A loaded stalking cat with the room-3 aggression factor 2.0. -/
def catC9 : CatState :=
  { catLoaded with state := CatMode.stalking, aggressionMultiplier := 2 }

/-- Claim C9 (amended): in a Stalking update whose horizontal distance
exceeds the 0.01 normalisation guard, the cat advances by exactly
speed · aggression · sprintFactor · delta along the horizontal unit vector
toward the player (sprintFactor 1.5 when sprinting, else 1.0); with speed 2
and aggression 2.0 this is 4·delta without sprint and 6·delta with sprint.
Below the guard the source skips normalisation and the step degenerates
(see the counterexample). -/
theorem stalking_advance (c : CatState) (δ : ℝ) (p : Vec3) (s : Bool)
    (hm : c.modelLoaded = true) (hs : c.state = CatMode.stalking)
    (hδ : 0 ≤ δ) (hsp : 0 ≤ c.speed) (hagg : 0 ≤ c.aggressionMultiplier)
    (hfar : 0.01 < Real.sqrt ((p.x - c.pos.x) ^ 2 + (p.z - c.pos.z) ^ 2)) :
    ((Cat.update c δ p s).1).pos.x - c.pos.x =
      (p.x - c.pos.x) / Real.sqrt ((p.x - c.pos.x) ^ 2 + (p.z - c.pos.z) ^ 2) *
        (c.speed * c.aggressionMultiplier * (if s then 1.5 else 1.0) * δ) ∧
    ((Cat.update c δ p s).1).pos.z - c.pos.z =
      (p.z - c.pos.z) / Real.sqrt ((p.x - c.pos.x) ^ 2 + (p.z - c.pos.z) ^ 2) *
        (c.speed * c.aggressionMultiplier * (if s then 1.5 else 1.0) * δ) ∧
    ((Cat.update c δ p s).1).pos.y = c.pos.y ∧
    Real.sqrt ((((Cat.update c δ p s).1).pos.x - c.pos.x) ^ 2 +
        (((Cat.update c δ p s).1).pos.z - c.pos.z) ^ 2) =
      c.speed * c.aggressionMultiplier * (if s then 1.5 else 1.0) * δ ∧
    (c.speed = 2 → c.aggressionMultiplier = 2 →
      Real.sqrt ((((Cat.update c δ p s).1).pos.x - c.pos.x) ^ 2 +
          (((Cat.update c δ p s).1).pos.z - c.pos.z) ^ 2) =
        (if s then 6 else 4) * δ) := by
  have hdpos : (0:ℝ) < Real.sqrt ((p.x - c.pos.x) ^ 2 + (p.z - c.pos.z) ^ 2) :=
    lt_trans (by norm_num) hfar
  have hSpos : (0:ℝ) < (p.x - c.pos.x) ^ 2 + (p.z - c.pos.z) ^ 2 :=
    Real.sqrt_pos.mp hdpos
  have hne : Real.sqrt ((p.x - c.pos.x) ^ 2 + (p.z - c.pos.z) ^ 2) ≠ 0 :=
    ne_of_gt hdpos
  have hsf : (0:ℝ) ≤ (if s then 1.5 else 1.0) := by split <;> norm_num
  have hM : (0:ℝ) ≤ c.speed * c.aggressionMultiplier * (if s then 1.5 else 1.0) * δ :=
    mul_nonneg (mul_nonneg (mul_nonneg hsp hagg) hsf) hδ
  have hd2 : Real.sqrt ((p.x - c.pos.x) ^ 2 + (p.z - c.pos.z) ^ 2) ^ 2 =
      (p.x - c.pos.x) ^ 2 + (p.z - c.pos.z) ^ 2 := Real.sq_sqrt hSpos.le
  have hx : ((Cat.update c δ p s).1).pos.x - c.pos.x =
      (p.x - c.pos.x) / Real.sqrt ((p.x - c.pos.x) ^ 2 + (p.z - c.pos.z) ^ 2) *
        (c.speed * c.aggressionMultiplier * (if s then 1.5 else 1.0) * δ) := by
    rw [update_stalking_eq c δ p s hm hs]
    dsimp only
    rw [updateStalking_pos]
    dsimp only
    rw [if_pos hfar]
    ring
  have hz : ((Cat.update c δ p s).1).pos.z - c.pos.z =
      (p.z - c.pos.z) / Real.sqrt ((p.x - c.pos.x) ^ 2 + (p.z - c.pos.z) ^ 2) *
        (c.speed * c.aggressionMultiplier * (if s then 1.5 else 1.0) * δ) := by
    rw [update_stalking_eq c δ p s hm hs]
    dsimp only
    rw [updateStalking_pos]
    dsimp only
    rw [if_pos hfar]
    ring
  have hy : ((Cat.update c δ p s).1).pos.y = c.pos.y := by
    rw [update_stalking_eq c δ p s hm hs]
    dsimp only
    rw [updateStalking_pos]
    dsimp only
    split_ifs <;> ring
  have key : ((p.x - c.pos.x) / Real.sqrt ((p.x - c.pos.x) ^ 2 + (p.z - c.pos.z) ^ 2) *
        (c.speed * c.aggressionMultiplier * (if s then 1.5 else 1.0) * δ)) ^ 2 +
      ((p.z - c.pos.z) / Real.sqrt ((p.x - c.pos.x) ^ 2 + (p.z - c.pos.z) ^ 2) *
        (c.speed * c.aggressionMultiplier * (if s then 1.5 else 1.0) * δ)) ^ 2 =
      (c.speed * c.aggressionMultiplier * (if s then 1.5 else 1.0) * δ) ^ 2 := by
    have h1 : ((p.x - c.pos.x) / Real.sqrt ((p.x - c.pos.x) ^ 2 + (p.z - c.pos.z) ^ 2) *
          (c.speed * c.aggressionMultiplier * (if s then 1.5 else 1.0) * δ)) ^ 2 +
        ((p.z - c.pos.z) / Real.sqrt ((p.x - c.pos.x) ^ 2 + (p.z - c.pos.z) ^ 2) *
          (c.speed * c.aggressionMultiplier * (if s then 1.5 else 1.0) * δ)) ^ 2 =
        ((p.x - c.pos.x) ^ 2 + (p.z - c.pos.z) ^ 2) *
          ((c.speed * c.aggressionMultiplier * (if s then 1.5 else 1.0) * δ) ^ 2 /
            Real.sqrt ((p.x - c.pos.x) ^ 2 + (p.z - c.pos.z) ^ 2) ^ 2) := by
      ring
    rw [h1, ← hd2]
    field_simp
    split_ifs <;> ring
  have hnorm : Real.sqrt ((((Cat.update c δ p s).1).pos.x - c.pos.x) ^ 2 +
      (((Cat.update c δ p s).1).pos.z - c.pos.z) ^ 2) =
      c.speed * c.aggressionMultiplier * (if s then 1.5 else 1.0) * δ := by
    rw [hx, hz, key, Real.sqrt_sq hM]
  refine ⟨hx, hz, hy, hnorm, ?_⟩
  intro h2 h2'
  rw [hnorm, h2, h2']
  split_ifs <;> norm_num

/-- Witness for C9: cat at the origin, player ten units down the z axis,
speed 2 and aggression 2, no sprint, delta 1 — the cat advances exactly
4 units. -/
theorem stalking_advance_witness :
    Real.sqrt ((((Cat.update catC9 1 ⟨0, 0, 10⟩ false).1).pos.x - catC9.pos.x) ^ 2 +
        (((Cat.update catC9 1 ⟨0, 0, 10⟩ false).1).pos.z - catC9.pos.z) ^ 2) = 4 := by
  have hfar : (0.01:ℝ) < Real.sqrt (((⟨0, 0, 10⟩:Vec3).x - catC9.pos.x) ^ 2 +
      ((⟨0, 0, 10⟩:Vec3).z - catC9.pos.z) ^ 2) := by
    rw [show ((⟨0, 0, 10⟩:Vec3).x - catC9.pos.x) ^ 2 +
        ((⟨0, 0, 10⟩:Vec3).z - catC9.pos.z) ^ 2 = (100:ℝ) from by
      norm_num [catC9, catLoaded, catInit]]
    exact (Real.lt_sqrt (by norm_num)).2 (by norm_num)
  have h := stalking_advance catC9 1 ⟨0, 0, 10⟩ false rfl rfl (by norm_num)
    (by norm_num [catC9, catLoaded, catInit]) (by norm_num [catC9, catLoaded, catInit])
    hfar
  simpa using h.2.2.2.2 rfl rfl

/-- Counterexample to C9 as universally stated: with the player only 0.005
horizontal units away (inside the 0.01 guard), the update does not advance
the cat by speed·aggression·delta = 4 — the direction is left unnormalised
and the cat moves only 0.02 units. -/
theorem stalking_advance_guard_counterexample :
    ((Cat.update catC9 1 ⟨0, 1.6, 1/200⟩ false).1).pos.z - catC9.pos.z = 1/50 ∧
    ((Cat.update catC9 1 ⟨0, 1.6, 1/200⟩ false).1).pos.x - catC9.pos.x = 0 ∧
    ((1:ℝ)/50) ≠ catC9.speed * catC9.aggressionMultiplier * 1.0 * 1 := by
  have hguard : ¬((0.01:ℝ) < Real.sqrt (((0:ℝ) - catC9.pos.x) ^ 2 +
      ((1/200:ℝ) - catC9.pos.z) ^ 2)) := by
    rw [show ((0:ℝ) - catC9.pos.x) ^ 2 + ((1/200:ℝ) - catC9.pos.z) ^ 2 =
        ((1:ℝ)/200) ^ 2 from by norm_num [catC9, catLoaded, catInit]]
    rw [Real.sqrt_sq (by norm_num)]
    norm_num
  refine ⟨?_, ?_, by norm_num [catC9, catLoaded, catInit]⟩
  · rw [update_stalking_eq catC9 1 ⟨0, 1.6, 1/200⟩ false rfl rfl]
    dsimp only
    rw [updateStalking_pos]
    dsimp only
    rw [if_neg hguard]
    norm_num [catC9, catLoaded, catInit]
  · rw [update_stalking_eq catC9 1 ⟨0, 1.6, 1/200⟩ false rfl rfl]
    dsimp only
    rw [updateStalking_pos]
    dsimp only
    rw [if_neg hguard]
    norm_num [catC9, catLoaded, catInit]

/-- Membership of a z coordinate in the i-th entry of `ROOM_Z_BOUNDS`
(both bounds inclusive, exactly as tested by the scan loop). -/
def zContains (i : Nat) (z : ℝ) : Prop :=
  match ROOM_Z_BOUNDS.get? i with
  | some b => b.minZ ≤ z ∧ z ≤ b.maxZ
  | none => False

theorem zContains_ge4 (n : Nat) (z : ℝ) : ¬ zContains (n + 4) z :=
  fun h => h

/-- Counterexample to C4: the inclusive z ranges of adjacent rooms overlap
at their shared boundaries: z = −3 lies in both the kitchen range (room 0)
and the hallway range (room 1), so the ranges are not non-overlapping and
the returned index (the first match, 0) is not the unique containing
room. -/
theorem room_ranges_overlap_counterexample :
    zContains 0 (-3) ∧ zContains 1 (-3) ∧
    getRoomIndexForPosition ⟨0, 1.6, -3⟩ = 0 := by
  refine ⟨⟨by norm_num, by norm_num⟩, ⟨by norm_num, by norm_num⟩, ?_⟩
  norm_num [getRoomIndexForPosition, findRoomIdx, ROOM_Z_BOUNDS]

/-- Claim C4 (amended): `getRoomIndexForPosition` returns the smallest
index whose z-bound range contains the position's z (the scan's first
match), or −1 when no range contains it.  Because adjacent ranges share a
boundary coordinate, the containing room is unique only away from the three
shared boundaries; at a shared boundary the lower-indexed room wins. -/
theorem classifyRoom_first_match (p : Vec3) :
    (getRoomIndexForPosition p = -1 ∧ ∀ i, ¬ zContains i p.z) ∨
    (∃ i : Nat, getRoomIndexForPosition p = Int.ofNat i ∧ zContains i p.z ∧
      ∀ j, j < i → ¬ zContains j p.z) := by
  by_cases h0 : (-3:ℝ) ≤ p.z ∧ p.z ≤ 3
  · right
    refine ⟨0, ?_, h0, by omega⟩
    simp [getRoomIndexForPosition, findRoomIdx, ROOM_Z_BOUNDS, h0]
  · by_cases h1 : (-11:ℝ) ≤ p.z ∧ p.z ≤ -3
    · right
      refine ⟨1, ?_, h1, ?_⟩
      · simp [getRoomIndexForPosition, findRoomIdx, ROOM_Z_BOUNDS, h0, h1]
      · intro j hj
        interval_cases j
        exact h0
    · by_cases h2 : (-17:ℝ) ≤ p.z ∧ p.z ≤ -11
      · right
        refine ⟨2, ?_, h2, ?_⟩
        · simp [getRoomIndexForPosition, findRoomIdx, ROOM_Z_BOUNDS, h0, h1, h2]
        · intro j hj
          interval_cases j
          · exact h0
          · exact h1
      · by_cases h3 : (-23:ℝ) ≤ p.z ∧ p.z ≤ -17
        · right
          refine ⟨3, ?_, h3, ?_⟩
          · simp [getRoomIndexForPosition, findRoomIdx, ROOM_Z_BOUNDS, h0, h1, h2, h3]
          · intro j hj
            interval_cases j
            · exact h0
            · exact h1
            · exact h2
        · left
          constructor
          · simp [getRoomIndexForPosition, findRoomIdx, ROOM_Z_BOUNDS, h0, h1, h2, h3]
          · intro i
            rcases i with _ | _ | _ | _ | n
            · exact h0
            · exact h1
            · exact h2
            · exact h3
            · exact zContains_ge4 n p.z
